import Mathlib

/-!
Shallow embedding of the element-retrieval pipeline of `src/mldata/dataset.py`
(class `Dataset`): the key resolver `_get_key`, the segment fetcher
`_request_segment` / `_retrieve_segment_contents`, the access facade
`__getitem__`, ordered iteration `__iter__`, and the mutation path
`__delitem__` / `refresh`.

Remote calls are modelled by a `Remote` record of pure response functions and
every operation additionally returns the trace of remote requests it issued,
so that batching/partitioning claims can be stated about the requests
themselves.  Element metadata records are reduced to the only field the
pipeline reads from them: the identifier `_id`.  Times are naturals (seconds),
passed explicitly where the source calls `now()`.
-/

deriving instance DecidableEq for Except

namespace Dhub

/-- The shapes a key can take at `Dataset.__getitem__`
(src/mldata/dataset.py:158): a Python `int`, a Python `str`, or a `slice`
whose fields may each be `None`. -/
inductive PyKey where
  | int (n : Int)
  | str (s : String)
  | slice (start stop step : Option Int)
deriving DecidableEq, Repr

/-- The Python errors the modelled paths can raise.
`typeError` models `None < 0` / `range(None, ...)`; `valueError` models a
failing `int(...)` conversion (and `range` with step 0); `indexError` models
`page[index]` out of range in `_get_key`; `keyErrorBadType` is
`KeyError("Type of key not allowed.")` and `keyErrorNotFound key` is
`KeyError("{key} not found")` (line 204), formatting the current binding of
`key`. -/
inductive PyErr where
  | typeError
  | valueError
  | indexError
  | keyErrorBadType
  | keyErrorNotFound (key : PyKey)
deriving DecidableEq, Repr

/-- An element as observed through the retrieval pipeline: the identifier
(`_id`) of its metadata record, and the index (into the trace's list of
content-bundle submissions) of the content job its `content_promise` field
was attached to.  Elements built from one `_request_segment` call share one
job (lines 144-147). -/
structure Elem where
  id : String
  job : Nat
deriving DecidableEq, Repr

/-- `__getitem__`'s result after the final unification (lines 199-206):
a bare element when exactly one was gathered, the list when more. -/
inductive GetResult where
  | one (e : Elem)
  | many (es : List Elem)
deriving DecidableEq, Repr

/-- The remote requests an operation issued, in submission order:
`pageFetches` are `GET .../elements?page=N` calls, `metaReqs` are
`GET .../elements/bundle` metadata requests (each carrying its identifier
list), `contentReqs` are `_retrieve_segment_contents` submissions (each
carrying its identifier list), `singleMeta` / `singleContent` are the
single-element requests of the direct-identifier path. -/
structure Trace where
  pageFetches : List Int := []
  metaReqs : List (List String) := []
  contentReqs : List (List String) := []
  singleMeta : List String := []
  singleContent : List String := []
deriving DecidableEq, Repr

/-- The remote server, as a record of pure response functions.
`page p` is the ordered identifier list of `GET .../elements?page=p`
(summaries reduced to their `_id`); `bundleMeta ids` is the identifier list
of the metadata-bundle response, whose order is NOT guaranteed to match
`ids` (the source's own warning, lines 136-137); `single id` is the
single-element metadata fetch, which may fail in any way (remote Not-Found
or transport error alike, both reduced to `Except.error ()`);
`datasetInfo` is the `elements_count` field of `GET /datasets/{prefix}`
used by `refresh` (line 381). -/
structure Remote where
  page : Int → List String
  bundleMeta : List String → List String
  single : String → Except Unit String
  datasetInfo : Nat

/-- The client-side mutable state of a `Dataset` that the modelled paths
read or write: `elements_count` (used by `len(self)`), the page cache
(a dict from page number to the page's identifier list, modelled as an
association list), and `last_cache_time` (seconds). -/
structure DState where
  elements_count : Nat
  page_cache : List (Int × List String)
  last_cache_time : Nat
deriving DecidableEq, Repr

/-- Python dict assignment `d[k] = v`: replace the binding if `k` is
present, else append it. -/
def dictInsert (d : List (Int × List String)) (k : Int) (v : List String) :
    List (Int × List String) :=
  match d with
  | [] => [(k, v)]
  | (k0, v0) :: rest =>
    if k0 = k then (k, v) :: rest else (k0, v0) :: dictInsert rest k v

/-- `Dataset._get_key` (lines 244-261).  `ps` is `server_info['Page-Size']`,
`CT` is `CACHE_TIME`, `t` is `now()`.  Python `//` and `%` on ints are floor
division and floor modulus, i.e. `Int.fdiv` / `Int.fmod`.  If the cache is
stale it is cleared in place before the lookup; a miss issues one page fetch,
stores the page and updates `last_cache_time`.  The result is
`page[index]['_id']`: `none` models the uncaught `IndexError` when the page
is shorter than `index + 1`.  Returns (result, new state, page fetches
issued). -/
def get_key (r : Remote) (CT t : Nat) (s : DState) (ps : Int) (key_index : Int) :
    Option String × DState × List Int :=
  let key_page := Int.fdiv key_index ps
  let index := Int.fmod key_index ps
  let cache := if t - s.last_cache_time > CT then [] else s.page_cache
  match cache.lookup key_page with
  | some page => (page[index.toNat]?, { s with page_cache := cache }, [])
  | none =>
    let page := r.page key_page
    (page[index.toNat]?,
     { s with page_cache := dictInsert cache key_page page, last_cache_time := t },
     [key_page])

/-- Resolve a list of logical indices through `_get_key` in order, threading
the cache state (the list comprehension at line 175).  A `none` from
`_get_key` propagates as the uncaught `IndexError`.  Returns
(identifiers or error, final state, page fetches issued). -/
def resolve_ids (r : Remote) (CT t : Nat) (ps : Int) :
    DState → List Int → Except PyErr (List String) × DState × List Int
  | s, [] => (.ok [], s, [])
  | s, i :: is =>
    match get_key r CT t s ps i with
    | (none, s1, f) => (.error .indexError, s1, f)
    | (some id, s1, f) =>
      match resolve_ids r CT t ps s1 is with
      | (.ok ids, s2, fs) => (.ok (id :: ids), s2, f ++ fs)
      | (.error e, s2, fs) => (.error e, s2, f ++ fs)

/-- Structural worker for `segments`: `fuel` starts at the list's length and
strictly bounds the recursion (each step consumes at least one element when
`ps ≥ 1`, so the fuel never runs out before the list does). -/
def segmentsF (ps : Nat) : Nat → List String → List (List String)
  | _, [] => []
  | 0, l => [l]
  | fuel + 1, x :: xs =>
    ((x :: xs).take ps) :: segmentsF ps fuel (xs.drop (ps - 1))

/-- Modelled from the spec: `segments` is imported from `mldata.config`,
which is not under src/.  Per the spec it "partitions the resulting
identifier list into page-size-bounded segments": consecutive chunks of at
most `ps` identifiers, none empty, whose concatenation is the input. -/
def segments (ids : List String) (ps : Int) : List (List String) :=
  segmentsF ps.toNat ids.length ids

/-- `Dataset._request_segment` (lines 132-149): issue one metadata-bundle
request for `ids`, build one `Elem` per metadata record in RESPONSE order
(the source does not reorder; its own comment flags this), submit one
content job for `ids` and attach it to every element.  `job` is the index
this content submission will occupy in the trace. -/
def request_segment (r : Remote) (job : Nat) (ids : List String) : List Elem :=
  (r.bundleMeta ids).map (fun i => { id := i, job := job })

/-- Python `range(start, stop, step)` for `step ≠ 0` (the modelled callers
normalise `step = None` to 1 beforehand and `step = 0` is rejected with
`valueError` before this is called). -/
def pyRange (start stop step : Int) : List Int :=
  if 0 < step ∧ start < stop then
    (List.range ((stop - start + step - 1).toNat / step.toNat)).map
      (fun k => start + k * step)
  else if step < 0 ∧ stop < start then
    (List.range ((start - stop + (-step) - 1).toNat / (-step).toNat)).map
      (fun k => start + k * step)
  else []

/-- The slice arm of `__getitem__` (lines 165-182), before the final result
unification.  Mirrors the source line by line:
`step` defaults to 1; if `key.stop is None` then after setting
`stop = len(self)` the very next line evaluates `key.stop < 0`, i.e.
`None < 0`, raising `TypeError`; a non-`None` negative `stop` becomes
`len(self) - stop`; a `None` `start` reaches `range(None, ...)` and raises
`TypeError` there; `range(..., 0)` raises `ValueError`.  Then every index in
the range is resolved through `_get_key`, and ONE `_request_segment(ids)`
future is submitted PER segment of `segments(ids, ps)` — each future carries
the whole `ids` list, as the source does (line 177 passes `ids`, not
`segment`).  Element lists of the futures are concatenated in submission
order. -/
def getitem_slice (r : Remote) (CT t : Nat) (s : DState) (ps : Int)
    (start? stop? step? : Option Int) :
    Except PyErr (List Elem) × DState × Trace :=
  let len : Int := s.elements_count
  let step := step?.getD 1
  match stop? with
  | none => (.error .typeError, s, {})
  | some st =>
    let stop := if st < 0 then len - st else st
    match start? with
    | none => (.error .typeError, s, {})
    | some start =>
      if step = 0 then (.error .valueError, s, {})
      else
        match resolve_ids r CT t ps s (pyRange start stop step) with
        | (.error e, s1, fs) => (.error e, s1, { pageFetches := fs })
        | (.ok ids, s1, fs) =>
          let segs := segments ids ps
          let elems := (List.range segs.length).flatMap
            (fun j => request_segment r j ids)
          (.ok elems, s1,
           { pageFetches := fs,
             metaReqs := segs.map (fun _ => ids),
             contentReqs := segs.map (fun _ => ids) })

/-- Python `str(key)` for the non-slice keys of line 159 (`toString` on a
Lean `Int` renders like Python's decimal form, minus sign included). -/
def str_of_key : PyKey → String
  | .int n => toString n
  | .str s => s
  | .slice _ _ _ => ""

/-- Value of a nonempty run of decimal digits; `none` on the empty list or
on any non-digit character (Python's `ValueError`). -/
def digitsVal (acc : Nat) : List Char → Option Nat
  | [] => some acc
  | c :: cs =>
    if c.isDigit then digitsVal (acc * 10 + (c.toNat - '0'.toNat)) cs else none

/-- Python `int(text)` on a plainly formatted decimal string: an optional
sign followed by at least one digit (CPython's extra tolerance for
surrounding whitespace and digit-group underscores is outside this model;
every key the claims exercise is plainly formatted). -/
def pyIntOfChars : List Char → Option Int
  | [] => none
  | '-' :: [] => none
  | '+' :: [] => none
  | '-' :: c :: cs => (digitsVal 0 (c :: cs)).map (fun n => -(n : Int))
  | '+' :: c :: cs => (digitsVal 0 (c :: cs)).map (fun n => (n : Int))
  | c :: cs => (digitsVal 0 (c :: cs)).map (fun n => (n : Int))

/-- Python `int(key)` on the values line 160 can receive: the identity on an
int, a decimal parse on a string (`none` models the `ValueError` on
non-decimal text such as `"abc"`). -/
def py_int : PyKey → Option Int
  | .int n => some n
  | .str s => pyIntOfChars s.data
  | .slice _ _ _ => none

/-- The final result unification of `__getitem__` (lines 199-206): a list
when more than one element was gathered, the bare element when exactly one,
else `KeyError("{key} not found")` formatting the CURRENT binding of `key`
(the converted slice on the numeric paths, the original string on the
direct-identifier path). -/
def finish (key : PyKey) :
    Except PyErr (List Elem) × DState × Trace →
    Except PyErr GetResult × DState × Trace
  | (.error e, s, tr) => (.error e, s, tr)
  | (.ok [], s, tr) => (.error (.keyErrorNotFound key), s, tr)
  | (.ok [e], s, tr) => (.ok (.one e), s, tr)
  | (.ok es, s, tr) => (.ok (.many es), s, tr)

/-- `Dataset.__getitem__` (lines 158-206).  A non-slice key whose `str` form
is shorter than 8 characters is converted by `int(key)` (possible
`ValueError`) and turned into the one-index slice `slice(k, k+1, 1)`; a
slice runs the slice arm; a string of length ≥ 8 is fetched directly by
identifier, with ANY failure of the single fetch swallowed into an empty
element list (lines 193-194), which the unification turns into
`KeyError("{key} not found")`; an int of ≥ 8 digits falls through every arm
and raises `KeyError("Type of key not allowed.")`.  On the direct path the
element's content is fetched by an individual single-element job. -/
def getitem (r : Remote) (CT t : Nat) (s : DState) (ps : Int) (key : PyKey) :
    Except PyErr GetResult × DState × Trace :=
  match key with
  | .slice start? stop? step? =>
    finish (.slice start? stop? step?) (getitem_slice r CT t s ps start? stop? step?)
  | .int n =>
    if (str_of_key (.int n)).length < 8 then
      finish (.slice (some n) (some (n + 1)) (some 1))
        (getitem_slice r CT t s ps (some n) (some (n + 1)) (some 1))
    else (.error .keyErrorBadType, s, {})
  | .str k =>
    if k.length < 8 then
      match py_int (.str k) with
      | none => (.error .valueError, s, {})
      | some n =>
        finish (.slice (some n) (some (n + 1)) (some 1))
          (getitem_slice r CT t s ps (some n) (some (n + 1)) (some 1))
    else
      match r.single k with
      | .ok id =>
        finish (.str k)
          (.ok [{ id := id, job := 0 }], s,
           { singleMeta := [k], singleContent := [id] })
      | .error _ =>
        finish (.str k) (.ok [], s, { singleMeta := [k] })

/-- `number_of_pages` as computed at line 223:
`len(self) // ps + int(len(self) % ps > 0)`. -/
def numberOfPages (len ps : Nat) : Nat :=
  len / ps + (if len % ps > 0 then 1 else 0)

/-- `Dataset.__iter__` (lines 217-242), flattened into the data it produces:
the yielded elements in yield order (each tagged with the index of the
content-bundle job it shares), the page-fetch submissions in submission
order, and the content-bundle submissions in submission order.  The loop
submits page 0 as the first buffer, prefetches page `p+1` on every
iteration (including a final discarded prefetch of page `number_of_pages`),
yields the elements of each fetched page `p < number_of_pages` in page
order, and submits, per page, one `_retrieve_segment_contents` job carrying
exactly that page's identifiers, shared by that page's elements
(lines 236-239). -/
def iter_elements (r : Remote) (len : Nat) (ps : Nat) :
    List Elem × List Int × List (List String) :=
  let N := numberOfPages len ps
  let yields := (List.range N).flatMap
    (fun p => (r.page (Int.ofNat p)).map (fun id => { id := id, job := p }))
  let fetches : List Int :=
    if N = 0 then [] else (List.range (N + 1)).map Int.ofNat
  let contentReqs := (List.range N).map (fun p => r.page (Int.ofNat p))
  (yields, fetches, contentReqs)

/-- `Dataset.refresh` (lines 379-383): re-read the dataset-level record and
overwrite `elements_count` (and the other dataset fields, which are outside
this model).  It does NOT touch `page_cache` or `last_cache_time`. -/
def refresh (r : Remote) (s : DState) : DState :=
  { s with elements_count := r.datasetInfo }

/-- `Dataset.__delitem__` (lines 208-210): issue the remote delete (no
client-side state effect) then `refresh`. -/
def delitem (r : Remote) (s : DState) (_key : String) : DState :=
  refresh r s

/-- A remote whose pages serve consecutive `ps`-sized chunks of one global
identifier list `L` (the well-formed paginated server of the spec's data
model, §6: `GET .../elements?page=N` returns the ordered page); pages at
negative numbers and past the end are empty. -/
def WellPaged (r : Remote) (L : List String) (ps : Int) : Prop :=
  ∀ p : Int,
    r.page p = if p < 0 then [] else (L.drop (p.toNat * ps.toNat)).take ps.toNat

/-! ### Concrete fixtures

The spec's own scenario (§8): a dataset with `Page-Size = 2` and five
elements with identifiers `a, b, c, d, e`, served by a well-formed paginated
remote whose metadata-bundle endpoint echoes the request order. -/

def exL : List String := ["a", "b", "c", "d", "e"]

def exRemote : Remote where
  page := fun p => if p < 0 then [] else (exL.drop (p.toNat * 2)).take 2
  bundleMeta := fun ids => ids
  single := fun i => .ok i
  datasetInfo := 5

def exState : DState where
  elements_count := 5
  page_cache := []
  last_cache_time := 0

/-- A remote whose single-element metadata fetch always fails (standing for
a remote Not-Found or a transport error — the source's line 193 catches
both alike). -/
def exRemoteFail : Remote where
  page := fun p => if p < 0 then [] else (exL.drop (p.toNat * 2)).take 2
  bundleMeta := fun ids => ids
  single := fun _ => .error ()
  datasetInfo := 5

/-- A ten-element dataset for the `ds[0:0]` versus `ds[0:10]` comparison. -/
def exL10 : List String :=
  ["q0", "q1", "q2", "q3", "q4", "q5", "q6", "q7", "q8", "q9"]

def exRemote10 : Remote where
  page := fun p => if p < 0 then [] else (exL10.drop (p.toNat * 2)).take 2
  bundleMeta := fun ids => ids
  single := fun i => .ok i
  datasetInfo := 10

def exState10 : DState where
  elements_count := 10
  page_cache := []
  last_cache_time := 0

/-- The remote as it stands after element `a` has been deleted server-side:
page 0 now holds only `b`, the count is 1. -/
def exRemoteDel : Remote where
  page := fun p => if p = 0 then ["b"] else []
  bundleMeta := fun ids => ids
  single := fun i => .ok i
  datasetInfo := 1

/-- Client state before the delete: two elements, page 0 cached as
`[a, b]`, cache written at time 10. -/
def exStateDel : DState where
  elements_count := 2
  page_cache := [(0, ["a", "b"])]
  last_cache_time := 10

/-! ### Helper lemmas -/

/-- `_get_key` from an empty page cache is always a miss: the result is read
at offset `i fmod ps` of the freshly fetched page `i fdiv ps`, which becomes
the sole cache entry, and exactly that page fetch is issued. -/
theorem get_key_empty (r : Remote) (CT t : Nat) (s : DState) (ps i : Int)
    (hc : s.page_cache = []) :
    get_key r CT t s ps i =
      ((r.page (i.fdiv ps))[(i.fmod ps).toNat]?,
       { s with page_cache := [(i.fdiv ps, r.page (i.fdiv ps))],
                last_cache_time := t },
       [i.fdiv ps]) := by
  simp only [get_key, hc, ite_self]
  rfl

/-- Decomposition of a logical index against Python floor division: the
page-start offset plus the in-page offset recovers the index. -/
theorem fdiv_fmod_decomp (ps i : Int) (hps : 0 < ps) (h0 : 0 ≤ i) :
    (i.fdiv ps).toNat * ps.toNat + (i.fmod ps).toNat = i.toNat := by
  have hdivnn : 0 ≤ i.fdiv ps := Int.fdiv_nonneg h0 hps.le
  have hmodnn : 0 ≤ i.fmod ps := Int.fmod_nonneg' i hps
  have hfd := Int.fdiv_add_fmod i ps
  have e1 : ((i.fdiv ps).toNat : Int) = i.fdiv ps := Int.toNat_of_nonneg hdivnn
  have e2 : (ps.toNat : Int) = ps := Int.toNat_of_nonneg hps.le
  have e3 : ((i.fmod ps).toNat : Int) = i.fmod ps := Int.toNat_of_nonneg hmodnn
  have key : (((i.fdiv ps).toNat * ps.toNat + (i.fmod ps).toNat : Nat) : Int) = i := by
    push_cast
    rw [e1, e2, e3]
    linarith [hfd]
  have h2 := congrArg Int.toNat key
  rwa [Int.toNat_natCast] at h2

theorem numberOfPages_zero (ps : Nat) : numberOfPages 0 ps = 0 := by
  simp [numberOfPages]

/-- Peeling one page off the page count: for a nonempty collection the
source's `len // ps + (len % ps > 0)` counts one page plus the pages of the
rest. -/
theorem numberOfPages_step (ps len : Nat) (hps : 0 < ps) (hlen : 0 < len) :
    numberOfPages len ps = numberOfPages (len - ps) ps + 1 := by
  unfold numberOfPages
  rcases Nat.lt_or_ge len ps with hc | hc
  · have h1 : len / ps = 0 := Nat.div_eq_of_lt hc
    have h2 : len % ps = len := Nat.mod_eq_of_lt hc
    have h3 : len - ps = 0 := by omega
    rw [h1, h2, h3, if_pos hlen, Nat.zero_div, Nat.zero_mod]
    simp
  · obtain ⟨a, rfl⟩ : ∃ a, len = a + ps := ⟨len - ps, by omega⟩
    rw [Nat.add_sub_cancel, Nat.add_div_right _ hps, Nat.add_mod_right]
    ring

/-- Joining the pages `0 .. number_of_pages - 1` of a well-formed paginated
server recovers the full identifier list. -/
theorem pages_flatMap (ps : Nat) (hps : 0 < ps) :
    ∀ (N : Nat) (L : List String), numberOfPages L.length ps = N →
      (List.range N).flatMap (fun p => (L.drop (p * ps)).take ps) = L := by
  intro N
  induction N with
  | zero =>
    intro L h
    have hmod : L.length % ps = 0 ∧ L.length / ps = 0 := by
      unfold numberOfPages at h
      by_cases hm : L.length % ps > 0
      · rw [if_pos hm] at h
        simp at h
      · rw [if_neg hm] at h
        simp at h hm
        exact ⟨hm, h⟩
    have hlen : L.length = 0 := by
      have hdm := Nat.div_add_mod L.length ps
      rw [hmod.1, hmod.2] at hdm
      simpa using hdm.symm
    rw [List.length_eq_zero.mp hlen]
    rfl
  | succ N ih =>
    intro L h
    have hlen : 0 < L.length := by
      rcases Nat.eq_zero_or_pos L.length with h0 | h0
      · rw [h0, numberOfPages_zero] at h
        omega
      · exact h0
    have hstep := numberOfPages_step ps L.length hps hlen
    rw [h] at hstep
    have ihL := ih (L.drop ps) (by rw [List.length_drop]; omega)
    rw [List.range_succ_eq_map, List.flatMap_cons, List.flatMap_map]
    have harg : ∀ p : Nat, (L.drop (Nat.succ p * ps)).take ps
        = ((L.drop ps).drop (p * ps)).take ps := by
      intro p
      have hm : Nat.succ p * ps = ps + p * ps := by
        rw [Nat.succ_mul, Nat.add_comm]
      rw [hm, ← List.drop_drop]
    simp only [Nat.zero_mul, List.drop_zero, harg]
    rw [ihL, List.take_append_drop]

/-- Every element produced by the iteration loop carries the job tag of the
page it came from, so its tag is below the page count. -/
theorem job_lt_of_mem (g : Nat → List String) (N : Nat) (e : Elem)
    (he : e ∈ (List.range N).flatMap (fun q => (g q).map (fun id => Elem.mk id q))) :
    e.job < N := by
  rw [List.mem_flatMap] at he
  obtain ⟨q, hq, he2⟩ := he
  rw [List.mem_map] at he2
  obtain ⟨id, _, rfl⟩ := he2
  simpa using List.mem_range.mp hq

/-- Filtering the iteration stream by a page's job tag recovers exactly that
page's elements, in page order. -/
theorem filter_job_flatMap (g : Nat → List String) :
    ∀ (N p : Nat), p < N →
      (((List.range N).flatMap (fun q => (g q).map (fun id => Elem.mk id q))).filter
          (fun e => e.job == p)).map Elem.id = g p := by
  intro N
  induction N with
  | zero =>
    intro p hp
    omega
  | succ N ih =>
    intro p hp
    rw [List.range_succ, List.flatMap_append, List.filter_append, List.map_append]
    have hsingle : ([N].flatMap (fun q => (g q).map (fun id => Elem.mk id q)))
        = (g N).map (fun id => Elem.mk id N) := by
      simp
    rcases Nat.lt_or_ge p N with hpN | hpN
    · have hlast : (((g N).map (fun id => Elem.mk id N)).filter
          (fun e => e.job == p)) = [] := by
        rw [List.filter_eq_nil_iff]
        intro e he
        rw [List.mem_map] at he
        obtain ⟨id, _, rfl⟩ := he
        simp only [beq_iff_eq]
        omega
      rw [hsingle, hlast, ih p hpN]
      simp
    · have hpN2 : p = N := by omega
      subst hpN2
      have hfirst : (((List.range p).flatMap
            (fun q => (g q).map (fun id => Elem.mk id q))).filter
          (fun e => e.job == p)) = [] := by
        rw [List.filter_eq_nil_iff]
        intro e he
        have := job_lt_of_mem g p e he
        simp only [beq_iff_eq]
        omega
      rw [hsingle, hfirst]
      have hall : (((g p).map (fun id => Elem.mk id p)).filter
          (fun e => e.job == p)) = (g p).map (fun id => Elem.mk id p) := by
        rw [List.filter_eq_self]
        intro e he
        rw [List.mem_map] at he
        obtain ⟨id, _, rfl⟩ := he
        simp
      rw [hall, List.map_map]
      have hid : (Elem.id ∘ fun id => Elem.mk id p) = id := rfl
      rw [hid, List.map_id]
      simp

/-! ### Claim theorems -/

/-- Claim C1 (refuted by evaluation — the code contradicts the segment
invariant): at the spec's own scenario `ds[1:4]` with `Page-Size = 2`
(resolved identifiers `[b, c, d]`), line 177 submits `_request_segment(ids)`
— the FULL resolved list — once per segment of `segments(ids, ps)`, the
loop variable `segment` being unused.  So the code issues two
metadata-bundle requests and two content-bundle requests, each carrying all
three identifiers: every request exceeds the page-size bound of 2 and every
identifier appears in two requests instead of exactly one. -/
theorem C1_segment_requests :
    (getitem exRemote 100 0 exState 2 (.slice (some 1) (some 4) (some 1))).2.2.metaReqs
        = [["b", "c", "d"], ["b", "c", "d"]] ∧
    (getitem exRemote 100 0 exState 2 (.slice (some 1) (some 4) (some 1))).2.2.contentReqs
        = [["b", "c", "d"], ["b", "c", "d"]] := by decide

/-- Claim C2 (refuted by evaluation — same root cause as C1): for
`ds[1:4]` over the five-element dataset with `Page-Size = 2` (k = 3
in-range indices), `__getitem__` returns SIX elements — the full resolved
list `[b, c, d]` once per segment — not the claimed exactly-3-in-index-order
result. -/
theorem C2_slice_element_count :
    (getitem exRemote 100 0 exState 2 (.slice (some 1) (some 4) (some 1))).1
      = .ok (.many [⟨"b", 0⟩, ⟨"c", 0⟩, ⟨"d", 0⟩,
                    ⟨"b", 1⟩, ⟨"c", 1⟩, ⟨"d", 1⟩]) := by decide

/-- Claim C3 (confirmed): against a well-formed paginated remote serving
the identifier list `L`, a resolve from a fresh (empty) cache returns
exactly the entry at offset `i fmod page_size` of the page fetched at page
number `i fdiv page_size` — and that single page fetch is issued.  For
`0 ≤ i < length` this is the `i`-th identifier of `L` and the resolve
succeeds; for `i` outside the range the offset misses the fetched page and
`_get_key` fails with the uncaught Not-Found-class `IndexError` of
`page[index]`, modelled as `none`. -/
theorem C3_key_resolver (r : Remote) (L : List String) (CT t : Nat) (s : DState)
    (ps i : Int) (hps : 0 < ps) (hw : WellPaged r L ps) (hc : s.page_cache = []) :
    (get_key r CT t s ps i).1 = (r.page (i.fdiv ps))[(i.fmod ps).toNat]? ∧
    (get_key r CT t s ps i).2.2 = [i.fdiv ps] ∧
    (0 ≤ i → i < (L.length : Int) →
      (get_key r CT t s ps i).1 = L[i.toNat]? ∧
      ∃ id, (get_key r CT t s ps i).1 = some id) ∧
    ((i < 0 ∨ (L.length : Int) ≤ i) → (get_key r CT t s ps i).1 = none) := by
  have hk := get_key_empty r CT t s ps i hc
  have hpage : (get_key r CT t s ps i).1 = (r.page (i.fdiv ps))[(i.fmod ps).toNat]? := by
    rw [hk]
  have hmodnn : 0 ≤ i.fmod ps := Int.fmod_nonneg' i hps
  have hmodlt : i.fmod ps < ps := Int.fmod_lt_of_pos i hps
  refine ⟨hpage, by rw [hk], ?_, ?_⟩
  · intro h0 hlt
    have hdivnn : 0 ≤ i.fdiv ps := Int.fdiv_nonneg h0 hps.le
    have hid := fdiv_fmod_decomp ps i hps h0
    have hval : (get_key r CT t s ps i).1 = L[i.toNat]? := by
      rw [hpage, hw, if_neg (by omega : ¬ i.fdiv ps < 0), List.getElem?_take,
        if_pos (by omega : (i.fmod ps).toNat < ps.toNat), List.getElem?_drop, hid]
    refine ⟨hval, ?_⟩
    rw [hval, List.getElem?_eq_getElem (by omega : i.toNat < L.length)]
    exact ⟨_, rfl⟩
  · rintro (hneg | hge)
    · have hfd := Int.fdiv_add_fmod i ps
      have hdivneg : i.fdiv ps < 0 := by
        by_contra hge2
        push_neg at hge2
        have hM : 0 ≤ ps * (i.fdiv ps) := mul_nonneg hps.le hge2
        set M := ps * (i.fdiv ps) with hMdef
        omega
      rw [hpage, hw, if_pos hdivneg]
      simp
    · have h0 : 0 ≤ i := by omega
      have hdivnn : 0 ≤ i.fdiv ps := Int.fdiv_nonneg h0 hps.le
      have hid := fdiv_fmod_decomp ps i hps h0
      have hlen : L.length ≤ i.toNat := by omega
      rw [hpage, hw, if_neg (by omega : ¬ i.fdiv ps < 0)]
      apply List.getElem?_eq_none
      rw [List.length_take, List.length_drop]
      set A := (i.fdiv ps).toNat * ps.toNat with hA
      omega

theorem C3_key_resolver_witness :
    (0 : Int) < 2 ∧ exState.page_cache = [] ∧
    (get_key exRemote 100 0 exState 2 3).1 = some "d" ∧
    (get_key exRemote 100 0 exState 2 3).2.2 = [1] :=
  ⟨by decide, rfl, by
    have h := (C3_key_resolver exRemote exL 100 0 exState 2 3 (by decide)
      (fun p => rfl) rfl).2.2.1 (by decide) (by decide)
    rw [h.1]
    decide, by
    exact (C3_key_resolver exRemote exL 100 0 exState 2 3 (by decide)
      (fun p => rfl) rfl).2.1⟩

/-- Claim C4 (confirmed): whenever a resolve happens strictly more than
`CACHE_TIME` after the last cache write, `_get_key` clears the whole page
cache before the lookup — the state afterwards holds ONLY the newly fetched
page, whatever was cached before — and a fresh page fetch is issued even if
the requested page had an entry. -/
theorem C4_cache_expiry (r : Remote) (CT t : Nat) (s : DState) (ps i : Int)
    (h : t - s.last_cache_time > CT) :
    get_key r CT t s ps i =
      ((r.page (i.fdiv ps))[(i.fmod ps).toNat]?,
       { s with page_cache := [(i.fdiv ps, r.page (i.fdiv ps))],
                last_cache_time := t },
       [i.fdiv ps]) := by
  simp only [get_key]
  rw [if_pos h]
  rfl

theorem C4_cache_expiry_witness :
    5 - 0 > 3 ∧
    get_key exRemote 3 5
        { elements_count := 5, page_cache := [(0, ["x", "y"])], last_cache_time := 0 } 2 0 =
      ((exRemote.page ((0 : Int).fdiv 2))[((0 : Int).fmod 2).toNat]?,
       { elements_count := 5,
         page_cache := [((0 : Int).fdiv 2, exRemote.page ((0 : Int).fdiv 2))],
         last_cache_time := 5 },
       [(0 : Int).fdiv 2]) :=
  ⟨by decide, C4_cache_expiry exRemote 3 5 _ 2 0 (by decide)⟩

/-- Claim C5 (confirmed, with the fetch clause read inclusively): iterating
a dataset whose cached length equals the length of the remote identifier
list `L` yields exactly `len` Elements — the yielded identifier sequence is
`L` itself, page by page in increasing page order; the page fetches are
submitted in strictly increasing order and include every page
`0 .. number_of_pages - 1` (the double buffering additionally prefetches
the one-past-the-end page, whose result is discarded); and for each page
`p`, the elements yielded for `p` are exactly that page's identifiers, all
tagged with the single content-bundle job `p`, whose submitted identifier
list is exactly the page's identifier list. -/
theorem C5_iteration (r : Remote) (L : List String) (ps len : Nat)
    (hps : 0 < ps) (hw : WellPaged r L (Int.ofNat ps)) (hlen : len = L.length) :
    (iter_elements r len ps).1.map Elem.id = L ∧
    (iter_elements r len ps).1.length = len ∧
    List.Sorted (· < ·) (iter_elements r len ps).2.1 ∧
    (∀ p, p < numberOfPages len ps → Int.ofNat p ∈ (iter_elements r len ps).2.1) ∧
    (∀ p, p < numberOfPages len ps →
      ((iter_elements r len ps).1.filter (fun e => e.job == p)).map Elem.id
          = r.page (Int.ofNat p) ∧
      (iter_elements r len ps).2.2[p]? = some (r.page (Int.ofNat p))) := by
  have hpage : ∀ p : Nat, r.page (Int.ofNat p) = (L.drop (p * ps)).take ps := by
    intro p
    rw [hw (Int.ofNat p),
      if_neg (by exact Int.not_lt.mpr (Int.natCast_nonneg p) : ¬ Int.ofNat p < 0)]
    rfl
  have hyields : (iter_elements r len ps).1
      = (List.range (numberOfPages len ps)).flatMap
          (fun p => (r.page (Int.ofNat p)).map (fun id => Elem.mk id p)) := rfl
  have hfetches : (iter_elements r len ps).2.1
      = (if numberOfPages len ps = 0 then []
         else (List.range (numberOfPages len ps + 1)).map Int.ofNat) := rfl
  have hcreqs : (iter_elements r len ps).2.2
      = (List.range (numberOfPages len ps)).map (fun p => r.page (Int.ofNat p)) := rfl
  have hinner : ∀ p : Nat,
      ((r.page (Int.ofNat p)).map (fun id => Elem.mk id p)).map Elem.id
        = (L.drop (p * ps)).take ps := by
    intro p
    rw [List.map_map]
    have hid : (Elem.id ∘ fun id => Elem.mk id p) = id := rfl
    rw [hid, List.map_id, hpage p]
  have hmain : (iter_elements r len ps).1.map Elem.id = L := by
    rw [hyields, List.map_flatMap]
    simp only [hinner]
    exact pages_flatMap ps hps (numberOfPages len ps) L (by rw [← hlen])
  have hcount : (iter_elements r len ps).1.length = len := by
    have := congrArg List.length hmain
    rwa [List.length_map, ← hlen] at this
  refine ⟨hmain, hcount, ?_, ?_, ?_⟩
  · rw [hfetches]
    by_cases hN : numberOfPages len ps = 0
    · rw [if_pos hN]
      exact List.sorted_nil
    · rw [if_neg hN]
      exact List.Pairwise.map _ (fun a b h => Int.ofNat_lt.mpr h) (List.sorted_lt_range _)
  · intro p hp
    rw [hfetches, if_neg (by omega : ¬ numberOfPages len ps = 0)]
    exact List.mem_map_of_mem _ (List.mem_range.mpr (by omega))
  · intro p hp
    constructor
    · rw [hyields]
      exact filter_job_flatMap (fun q => r.page (Int.ofNat q)) (numberOfPages len ps) p hp
    · rw [hcreqs, List.getElem?_map, List.getElem?_range hp]
      rfl

theorem C5_iteration_witness :
    0 < 2 ∧ (5 : Nat) = exL.length ∧
    (iter_elements exRemote 5 2).1.map Elem.id = exL ∧
    (iter_elements exRemote 5 2).1.length = 5 :=
  ⟨by decide, rfl,
   (C5_iteration exRemote exL 2 5 (by decide) (fun p => rfl) rfl).1,
   (C5_iteration exRemote exL 2 5 (by decide) (fun p => rfl) rfl).2.1⟩

/-- Claim C6 (confirmed): for a string key of length at least 8 (the direct
identifier path), the result of `__getitem__` is fully characterised by the
single-element metadata fetch: ANY failure of it — the model's single error
covers remote Not-Found and transport errors alike — yields
`KeyError("{key} not found")` naming the key, and a success yields that one
element; no other error can escape this path. -/
theorem C6_single_key_errors (r : Remote) (CT t : Nat) (s : DState) (ps : Int)
    (k : String) (h : 8 ≤ k.length) :
    (∀ e : Unit, r.single k = .error e →
      (getitem r CT t s ps (.str k)).1 = .error (.keyErrorNotFound (.str k))) ∧
    (∀ id : String, r.single k = .ok id →
      (getitem r CT t s ps (.str k)).1 = .ok (.one { id := id, job := 0 })) := by
  constructor
  · intro e he
    simp only [getitem, if_neg (by omega : ¬ k.length < 8), he, finish]
  · intro id hid
    simp only [getitem, if_neg (by omega : ¬ k.length < 8), hid, finish]

theorem C6_single_key_errors_witness :
    8 ≤ "abcdefgh".length ∧ exRemoteFail.single "abcdefgh" = .error () ∧
    (getitem exRemoteFail 100 0 exState 2 (.str "abcdefgh")).1
      = .error (.keyErrorNotFound (.str "abcdefgh")) :=
  ⟨by decide, rfl,
   (C6_single_key_errors exRemoteFail 100 0 exState 2 "abcdefgh" (by decide)).1 () rfl⟩

/-- Claim C7 (refuted by evaluation — the code crashes where the claim says
it succeeds): `ds[2:]`, a slice with the stop omitted, raises `TypeError`:
line 170 does default `stop` to `len(self)`, but the very next line
unconditionally evaluates `key.stop < 0`, which is `None < 0`.  No dataset
access with an omitted stop can succeed. -/
theorem C7_omitted_stop_type_error :
    (getitem exRemote 100 0 exState 2 (.slice (some 2) none none)).1
      = .error .typeError := by decide

/-- Claim C8 (counterexample): on the ten-element dataset, `ds[0:0]` raises
`KeyError("slice(0, 0, None) not found")` — an empty range — while
`ds[0:10]` returns elements; the two accesses are NOT equal. -/
theorem C8_zero_stop_counterexample :
    (getitem exRemote10 100 0 exState10 2 (.slice (some 0) (some 0) none)).1
        = .error (.keyErrorNotFound (.slice (some 0) (some 0) none)) ∧
    (getitem exRemote10 100 0 exState10 2 (.slice (some 0) (some 10) none)).1
        ≠ (getitem exRemote10 100 0 exState10 2 (.slice (some 0) (some 0) none)).1 := by
  decide

/-- Claim C8 as amended: a zero stop is an EMPTY range, not the full
collection — for every dataset state and remote, `ds[0:0]` resolves no
index, gathers no element, and raises Not-Found (`KeyError`). -/
theorem C8_zero_stop_amended (r : Remote) (CT t : Nat) (s : DState) (ps : Int) :
    (getitem r CT t s ps (.slice (some 0) (some 0) none)).1
      = .error (.keyErrorNotFound (.slice (some 0) (some 0) none)) := rfl

/-- Claim C9 (counterexample): after `__delitem__` (which forces a full
`refresh`), the page-cache entry written BEFORE the mutation survives
untouched, and the next resolve within the time-to-live answers from it —
returning the deleted identifier `a` with no page fetch — because `refresh`
rewrites counts and fields but never touches `page_cache`. -/
theorem C9_mutation_cache_counterexample :
    (delitem exRemoteDel exStateDel "a").page_cache = [(0, ["a", "b"])] ∧
    get_key exRemoteDel 100 10 (delitem exRemoteDel exStateDel "a") 2 0
      = (some "a", delitem exRemoteDel exStateDel "a", []) := by decide

/-- Claim C9 as amended: explicit collection mutation does NOT invalidate
the key resolver's page cache.  `__delitem__` leaves `page_cache` and
`last_cache_time` unchanged, and a subsequent resolve within the
time-to-live whose page is cached is answered from the pre-mutation entry,
with no remote page fetch. -/
theorem C9_mutation_cache_amended (r : Remote) (s : DState) (key : String)
    (CT t : Nat) (ps i : Int) (page : List String)
    (h1 : ¬ t - s.last_cache_time > CT)
    (h2 : s.page_cache.lookup (i.fdiv ps) = some page) :
    (delitem r s key).page_cache = s.page_cache ∧
    (delitem r s key).last_cache_time = s.last_cache_time ∧
    get_key r CT t (delitem r s key) ps i
      = (page[(i.fmod ps).toNat]?, delitem r s key, []) := by
  refine ⟨rfl, rfl, ?_⟩
  simp only [get_key, delitem, refresh]
  rw [if_neg h1, h2]

theorem C9_mutation_cache_amended_witness :
    ¬ ((10 : Nat) - exStateDel.last_cache_time > 100) ∧
    exStateDel.page_cache.lookup ((0 : Int).fdiv 2) = some ["a", "b"] ∧
    get_key exRemoteDel 100 10 (delitem exRemoteDel exStateDel "a") 2 0
      = ((["a", "b"])[((0 : Int).fmod 2).toNat]?, delitem exRemoteDel exStateDel "a", []) :=
  ⟨by decide, by decide,
   (C9_mutation_cache_amended exRemoteDel exStateDel "a" 100 10 2 0 ["a", "b"]
     (by decide) (by decide)).2.2⟩

/-- Claim C10 (confirmed): a non-slice key whose string form is shorter
than 8 characters and is not a decimal integer literal — such as the raw
identifier `"abc"` — makes `__getitem__` raise the integer-conversion
`ValueError` from `int(key)` at line 160, not a Not-Found error; so no raw
server identifier shorter than 8 characters can ever be fetched by
identifier. -/
theorem C10_short_nonnumeric_key (r : Remote) (CT t : Nat) (s : DState) (ps : Int)
    (k : String) (h1 : k.length < 8) (h2 : pyIntOfChars k.data = none) :
    (getitem r CT t s ps (.str k)).1 = .error .valueError := by
  simp only [getitem, py_int, if_pos h1, h2]

theorem C10_short_nonnumeric_key_witness :
    "abc".length < 8 ∧ pyIntOfChars "abc".data = none ∧
    (getitem exRemote 100 0 exState 2 (.str "abc")).1 = .error .valueError :=
  ⟨by decide, by decide,
   C10_short_nonnumeric_key exRemote 100 0 exState 2 "abc" (by decide) (by decide)⟩

end Dhub

